import Mathlib

/-!
Shallow embedding of the CSV-upload page component: its state hooks, the
`handleFileUpload` handler (file-type validation, synchronous phase, and the
`Papa.parse` completion callback), `clearData`, the `has3DColumns` predicate,
the `checkTrameServer` liveness probe, and the mount/teardown probe schedule
produced by the component's effect (`setInterval` with period 5000 and
`clearInterval` on teardown).
-/

/-- JS `String.prototype.trim`: strip leading and trailing whitespace
characters from both ends. -/
def strTrim (s : String) : String :=
  ⟨((s.data.dropWhile Char.isWhitespace).reverse.dropWhile Char.isWhitespace).reverse⟩

/-- JS `String.prototype.toLowerCase`: lower-case every character. -/
def strToLower (s : String) : String :=
  ⟨s.data.map Char.toLower⟩

/-- JS `String.prototype.endsWith`: exact (case-sensitive) suffix test. -/
def strEndsWith (s suffix : String) : Bool :=
  suffix.data.isSuffixOf s.data

/-- The parsed table: `interface CSVData { headers: string[]; rows: string[][] }`. -/
structure CSVData where
  headers : List String
  rows : List (List String)
deriving Repr, DecidableEq

/-- The component's state hooks: `csvData`, `loading`, `error`, `fileName`,
`trameServerRunning`. -/
structure HomeState where
  csvData : Option CSVData
  loading : Bool
  error : Option String
  fileName : String
  trameServerRunning : Bool
deriving Repr, DecidableEq

/-- A user-selected file as the handler sees it: its `name` and its declared
MIME `type`. -/
structure UploadedFile where
  name : String
  type : String
deriving Repr, DecidableEq

/-- What `Papa.parse` hands to the `complete` callback: the `errors` list and
the parsed `data` rows. -/
structure ParseResults where
  errors : List String
  data : List (List String)
deriving Repr, DecidableEq

/-- The `complete` callback body inside `handleFileUpload`: parser errors give
the generic parse error; zero rows give the empty-file error; otherwise the
first row becomes `headers` and the later rows, with rows whose every cell
trims to empty dropped, become `rows`. -/
def parseComplete (s : HomeState) (results : ParseResults) : HomeState :=
  if results.errors.length > 0 then
    { s with error := some "Error parsing CSV file", loading := false }
  else
    match results.data with
    | [] => { s with error := some "CSV file is empty", loading := false }
    | headers :: rest =>
      { s with
        csvData := some
          { headers := headers,
            rows := rest.filter (fun row => row.any (fun cell => strTrim cell != "")) },
        loading := false }

/-- The synchronous updates `handleFileUpload` performs once the type check
passes, before the parse completes: `setLoading(true)`, `setError(null)`,
`setFileName(file.name)`. -/
def uploadSyncPhase (s : HomeState) (f : UploadedFile) : HomeState :=
  { s with loading := true, error := none, fileName := f.name }

/-- `handleFileUpload`, with the parser's eventual results passed explicitly:
a file that is neither of CSV MIME type nor named `*.csv` is rejected with a
validation error; otherwise the synchronous phase runs and then the parse
completion is applied. -/
def handleFileUpload (s : HomeState) (f : UploadedFile) (results : ParseResults) :
    HomeState :=
  if f.type != "text/csv" && !(strEndsWith f.name ".csv") then
    { s with error := some "Please upload a valid CSV file" }
  else
    parseComplete (uploadSyncPhase s f) results

/-- `clearData`: reset the table, the file name and the error together. -/
def clearData (s : HomeState) : HomeState :=
  { s with csvData := none, fileName := "", error := none }

/-- The eight required column names of `has3DColumns`. -/
def requiredColumns : List String :=
  ["x", "y", "z", "componentId", "MaterialId", "True_Temp", "Pred_Temp", "Abs_Error"]

/-- `has3DColumns`: every required column name occurs among the headers up to
lower-casing both sides. -/
def has3DColumns (data : CSVData) : Bool :=
  requiredColumns.all (fun col =>
    data.headers.any (fun header => strToLower header == strToLower col))

/-- Outcome of the `fetch` HEAD request issued by `checkTrameServer`:
resolution with some HTTP status, or rejection (network error, CORS failure,
timeout, ...). -/
inductive FetchOutcome where
  | resolved (status : Nat)
  | rejected
deriving Repr, DecidableEq

/-- `Response.ok`: true iff the status lies in the 200..299 range. -/
def responseOk (status : Nat) : Bool :=
  200 ≤ status && status ≤ 299

/-- `checkTrameServer`: on resolution store `response.ok`; on rejection store
`false`. -/
def checkTrameServer (s : HomeState) (o : FetchOutcome) : HomeState :=
  match o with
  | .resolved status => { s with trameServerRunning := responseOk status }
  | .rejected => { s with trameServerRunning := false }

/-- Firing times of `setInterval(f, period)` started at time 0 and cancelled by
`clearInterval` at time `cancel`: the timer fires at `period`, `2 * period`,
..., at every multiple of `period` strictly before the cancellation. -/
def intervalFirings (period cancel : Nat) : List Nat :=
  ((List.range (cancel / period + 1)).map (fun k => period * (k + 1))).filter
    (fun t => t < cancel)

/-- Probe invocation times of the component's effect: one direct call at mount
time 0, then the firings of the 5000-period interval until teardown. -/
def homeEffectProbeTimes (teardown : Nat) : List Nat :=
  0 :: intervalFirings 5000 teardown

/-- Spec-side notion: a row is all-blank when every one of its cells is the
empty string after trimming. -/
def allBlankRow (row : List String) : Prop :=
  ∀ c ∈ row, strTrim c = ""

instance (row : List String) : Decidable (allBlankRow row) :=
  inferInstanceAs (Decidable (∀ c ∈ row, strTrim c = ""))

/-- Spec-side invariant: whenever a table is present, none of its rows is
all-blank. -/
def rowsInvariant (s : HomeState) : Prop :=
  ∀ d, s.csvData = some d → ∀ r ∈ d.rows, ¬ allBlankRow r

/-- The user-driven operations of the page that touch the table state. -/
inductive PageOp where
  | upload (f : UploadedFile) (results : ParseResults)
  | clear
deriving Repr, DecidableEq

def applyOp (s : HomeState) : PageOp → HomeState
  | .upload f results => handleFileUpload s f results
  | .clear => clearData s

def runOps (s : HomeState) (ops : List PageOp) : HomeState :=
  ops.foldl applyOp s

/-- The component's initial state. -/
def initialState : HomeState :=
  { csvData := none, loading := false, error := none, fileName := "",
    trameServerRunning := false }

/-- The code's keep-condition on a row equals the negation of the spec's
all-blank test. -/
theorem any_trim_bne_eq_not_all (row : List String) :
    (row.any fun c => strTrim c != "") = !(row.all fun c => strTrim c == "") := by
  induction row with
  | nil => rfl
  | cons a l ih =>
    simp only [List.any_cons, List.all_cons, Bool.not_and, bne] at ih ⊢
    rw [ih]

/-- A valid file (CSV MIME type or `.csv` suffix) fails the rejection test. -/
theorem valid_file_cond (f : UploadedFile)
    (hvalid : f.type = "text/csv" ∨ strEndsWith f.name ".csv" = true) :
    (f.type != "text/csv" && !(strEndsWith f.name ".csv")) = false := by
  rcases hvalid with h | h <;> simp [h, bne]

/-- C1: for every parse result with at least one row (and no parser errors, on
a file passing validation), ingestion sets `headers` to the first parsed row
verbatim and `rows` to all later rows with every all-blank row (every cell
empty after trimming) removed, preserving relative order. -/
theorem ingest_headers_and_blank_filter (s : HomeState) (f : UploadedFile)
    (results : ParseResults) (hd : List String) (tl : List (List String))
    (hvalid : f.type = "text/csv" ∨ strEndsWith f.name ".csv" = true)
    (herr : results.errors = [])
    (hdata : results.data = hd :: tl) :
    (handleFileUpload s f results).csvData =
      some { headers := hd,
             rows := tl.filter (fun row => !(row.all fun cell => strTrim cell == "")) } ∧
    (tl.filter (fun row => !(row.all fun cell => strTrim cell == ""))).Sublist tl := by
  constructor
  · simp only [handleFileUpload, valid_file_cond f hvalid, Bool.false_eq_true, if_false,
      parseComplete, herr, hdata, List.length_nil, gt_iff_lt, Nat.lt_irrefl, if_false]
    refine congrArg some (congrArg (CSVData.mk hd) ?_)
    exact List.filter_congr fun row _ => any_trim_bne_eq_not_all row
  · exact List.filter_sublist tl

/-- Witness to C1 at the concrete input of the spec's worked example. -/
theorem ingest_headers_and_blank_filter_witness :
    (handleFileUpload initialState { name := "demo.csv", type := "text/csv" }
        { errors := [], data := [["a", "b"], ["1", "2"], ["", "", ""]] }).csvData =
      some { headers := ["a", "b"], rows := [["1", "2"]] } := by
  have h := ingest_headers_and_blank_filter initialState
    { name := "demo.csv", type := "text/csv" }
    { errors := [], data := [["a", "b"], ["1", "2"], ["", "", ""]] }
    ["a", "b"] [["1", "2"], ["", "", ""]]
    (Or.inl rfl) rfl rfl
  rw [h.1]
  decide

/-- C2: `has3DColumns` returns true iff each of the eight names `x`, `y`, `z`,
`componentId`, `MaterialId`, `True_Temp`, `Pred_Temp`, `Abs_Error` occurs among
the table's headers under case-insensitive equality (equal lower-casings),
regardless of extra headers, their order, or their casing; it is false when at
least one is absent. -/
theorem has3DColumns_iff_required_present (data : CSVData) :
    has3DColumns data = true ↔
      ∀ col ∈ (["x", "y", "z", "componentId", "MaterialId", "True_Temp",
                "Pred_Temp", "Abs_Error"] : List String),
        ∃ header ∈ data.headers, strToLower header = strToLower col := by
  simp [has3DColumns, requiredColumns, List.all_eq_true, List.any_eq_true]

/-- Witness to C2 at the spec's example header list: all-lower-case variants of
the required names satisfy the predicate. -/
theorem has3DColumns_iff_required_present_witness :
    has3DColumns
      { headers := ["X", "Y", "Z", "componentid", "materialid", "true_temp",
                    "pred_temp", "abs_error"],
        rows := [] } = true :=
  (has3DColumns_iff_required_present _).mpr (by decide)

/-- C3: a file that is neither of CSV MIME type nor `*.csv`-named (exact,
case-sensitive suffix) is rejected: the validation error is set, the prior
table is unchanged, and no parse is attempted (the outcome is independent of
any parse results); a file meeting either condition is not rejected by this
check and proceeds to the parse path. -/
theorem invalid_file_rejected_no_parse (s : HomeState) (f : UploadedFile) :
    (f.type ≠ "text/csv" → strEndsWith f.name ".csv" = false →
      ∀ results results' : ParseResults,
        (handleFileUpload s f results).error = some "Please upload a valid CSV file" ∧
        (handleFileUpload s f results).csvData = s.csvData ∧
        handleFileUpload s f results = handleFileUpload s f results') ∧
    ((f.type = "text/csv" ∨ strEndsWith f.name ".csv" = true) →
      ∀ results,
        handleFileUpload s f results = parseComplete (uploadSyncPhase s f) results) := by
  constructor
  · intro h1 h2 results results'
    have hc : (f.type != "text/csv" && !(strEndsWith f.name ".csv")) = true := by
      simp [bne, h1, h2]
    simp [handleFileUpload, hc]
  · intro hv results
    simp [handleFileUpload, valid_file_cond f hv]

/-- Witness to C3: a `.txt` file of plain-text type is rejected with the
validation message; a `.csv`-named file of a non-CSV MIME type proceeds to
the parse path. -/
theorem invalid_file_rejected_no_parse_witness :
    (handleFileUpload initialState { name := "demo.txt", type := "text/plain" }
        { errors := [], data := [["a"]] }).error =
      some "Please upload a valid CSV file" ∧
    handleFileUpload initialState { name := "demo.csv", type := "text/plain" }
        { errors := [], data := [["a"]] } =
      parseComplete
        (uploadSyncPhase initialState { name := "demo.csv", type := "text/plain" })
        { errors := [], data := [["a"]] } := by
  refine ⟨((invalid_file_rejected_no_parse initialState
      { name := "demo.txt", type := "text/plain" }).1 (by decide) (by decide)
      { errors := [], data := [["a"]] } { errors := [], data := [["a"]] }).1, ?_⟩
  exact (invalid_file_rejected_no_parse initialState
    { name := "demo.csv", type := "text/plain" }).2 (Or.inr (by decide))
    { errors := [], data := [["a"]] }

/-- C4: on parse completion for a validated file: parser errors give exactly
the message "Error parsing CSV file" and leave the table unchanged; no errors
but zero rows give exactly "CSV file is empty" and leave the table unchanged;
in exactly the remaining case a table is set and no error remains. -/
theorem parse_completion_trichotomy (s : HomeState) (f : UploadedFile)
    (results : ParseResults)
    (hvalid : f.type = "text/csv" ∨ strEndsWith f.name ".csv" = true) :
    (results.errors ≠ [] →
      (handleFileUpload s f results).error = some "Error parsing CSV file" ∧
      (handleFileUpload s f results).csvData = s.csvData) ∧
    (results.errors = [] → results.data = [] →
      (handleFileUpload s f results).error = some "CSV file is empty" ∧
      (handleFileUpload s f results).csvData = s.csvData) ∧
    (results.errors = [] → results.data ≠ [] →
      (∃ d, (handleFileUpload s f results).csvData = some d) ∧
      (handleFileUpload s f results).error = none) := by
  have hc := valid_file_cond f hvalid
  refine ⟨?_, ?_, ?_⟩
  · intro herr
    have hlen : 0 < results.errors.length := List.length_pos.mpr herr
    simp [handleFileUpload, hc, parseComplete, hlen, uploadSyncPhase]
  · intro herr hdata
    simp [handleFileUpload, hc, parseComplete, herr, hdata, uploadSyncPhase]
  · intro herr hdata
    match hd : results.data with
    | [] => exact absurd hd hdata
    | h :: t =>
      simp [handleFileUpload, hc, parseComplete, herr, hd, uploadSyncPhase]

/-- Witness to C4: the three completion outcomes at concrete inputs. -/
theorem parse_completion_trichotomy_witness :
    (handleFileUpload initialState { name := "a.csv", type := "text/csv" }
        { errors := ["oops"], data := [] }).error = some "Error parsing CSV file" ∧
    (handleFileUpload initialState { name := "a.csv", type := "text/csv" }
        { errors := [], data := [] }).error = some "CSV file is empty" ∧
    (handleFileUpload initialState { name := "a.csv", type := "text/csv" }
        { errors := [], data := [["h"]] }).error = none := by
  refine ⟨((parse_completion_trichotomy initialState { name := "a.csv", type := "text/csv" }
      { errors := ["oops"], data := [] } (Or.inl rfl)).1 (by decide)).1,
    ((parse_completion_trichotomy initialState { name := "a.csv", type := "text/csv" }
      { errors := [], data := [] } (Or.inl rfl)).2.1 rfl rfl).1,
    ((parse_completion_trichotomy initialState { name := "a.csv", type := "text/csv" }
      { errors := [], data := [["h"]] } (Or.inl rfl)).2.2 rfl (by decide)).2⟩

/-- C5: liveness-probe completion: resolving with an HTTP-success status
(200..299, where `response.ok` holds) sets the flag to true; resolving with a
non-success status sets it to false; rejection for any reason sets it to
false. -/
theorem probe_result_mapping (s : HomeState) (o : FetchOutcome) :
    (∀ status, o = .resolved status → 200 ≤ status → status ≤ 299 →
      (checkTrameServer s o).trameServerRunning = true) ∧
    (∀ status, o = .resolved status → (status < 200 ∨ 299 < status) →
      (checkTrameServer s o).trameServerRunning = false) ∧
    (o = .rejected → (checkTrameServer s o).trameServerRunning = false) := by
  refine ⟨?_, ?_, ?_⟩
  · rintro status rfl h1 h2
    simp [checkTrameServer, responseOk, h1, h2]
  · rintro status rfl h
    have : (200 ≤ status && status ≤ 299) = false := by
      rcases h with h | h <;> simp <;> omega
    simp [checkTrameServer, responseOk, this]
  · rintro rfl
    rfl

/-- Witness to C5: status 200 yields true, status 404 yields false, rejection
yields false, at the initial state. -/
theorem probe_result_mapping_witness :
    (checkTrameServer initialState (.resolved 200)).trameServerRunning = true ∧
    (checkTrameServer initialState (.resolved 404)).trameServerRunning = false ∧
    (checkTrameServer initialState .rejected).trameServerRunning = false :=
  ⟨(probe_result_mapping initialState (.resolved 200)).1 200 rfl (by decide) (by decide),
   (probe_result_mapping initialState (.resolved 404)).2.1 404 rfl (Or.inr (by decide)),
   (probe_result_mapping initialState .rejected).2.2 rfl⟩

/-- Membership in the interval firings of the 5000-period timer cancelled at
`T`: exactly the positive multiples of 5000 strictly before `T`. -/
theorem mem_intervalFirings_5000 (T t : Nat) :
    t ∈ intervalFirings 5000 T ↔ ∃ k, 1 ≤ k ∧ t = 5000 * k ∧ t < T := by
  simp only [intervalFirings, List.mem_filter, List.mem_map, List.mem_range,
    decide_eq_true_eq]
  constructor
  · rintro ⟨⟨k, hk, rfl⟩, hlt⟩
    exact ⟨k + 1, Nat.le_add_left 1 k, rfl, hlt⟩
  · rintro ⟨k, hk1, rfl, hlt⟩
    refine ⟨⟨k - 1, by omega, by omega⟩, hlt⟩

/-- C6: the probe runs exactly once at mount time 0; the probe times are
exactly 0 together with every multiple of the 5000 period that falls strictly
before teardown; and no probe occurs at or after teardown time `T`. -/
theorem probe_schedule_spec (T : Nat) (hT : 0 < T) :
    (homeEffectProbeTimes T).count 0 = 1 ∧
    (∀ t, t ∈ homeEffectProbeTimes T ↔
      t = 0 ∨ ∃ k, 1 ≤ k ∧ t = 5000 * k ∧ t < T) ∧
    (∀ t ∈ homeEffectProbeTimes T, t < T) := by
  have hmem : ∀ t, t ∈ homeEffectProbeTimes T ↔
      t = 0 ∨ ∃ k, 1 ≤ k ∧ t = 5000 * k ∧ t < T := by
    intro t
    simp [homeEffectProbeTimes, List.mem_cons, mem_intervalFirings_5000 T t]
  refine ⟨?_, hmem, ?_⟩
  · have h0 : (0 : Nat) ∉ intervalFirings 5000 T := by
      intro hmem0
      rcases (mem_intervalFirings_5000 T 0).mp hmem0 with ⟨k, hk, he, _⟩
      omega
    simp [homeEffectProbeTimes, List.count_cons, List.count_eq_zero.mpr h0]
  · intro t ht
    rcases (hmem t).mp ht with rfl | ⟨k, _, rfl, hlt⟩
    · exact hT
    · exact hlt

/-- Witness to C6 at teardown time 10001: one mount-time probe, the firing at
5000 occurs, and the firing that would come at 15000 does not. -/
theorem probe_schedule_spec_witness :
    (homeEffectProbeTimes 10001).count 0 = 1 ∧
    5000 ∈ homeEffectProbeTimes 10001 ∧
    15000 ∉ homeEffectProbeTimes 10001 := by
  have h := probe_schedule_spec 10001 (by decide)
  refine ⟨h.1, (h.2.1 5000).mpr (Or.inr ⟨1, by omega, by omega, by omega⟩), ?_⟩
  intro hmem
  rcases (h.2.1 15000).mp hmem with h0 | ⟨k, hk, hek, hlt⟩
  · omega
  · omega

/-- C7: clearing, invoked in any state, sets the table to absent, the file
name to empty, and the error to absent together in one step. -/
theorem clearData_resets_all (s : HomeState) :
    (clearData s).csvData = none ∧ (clearData s).fileName = "" ∧
    (clearData s).error = none :=
  ⟨rfl, rfl, rfl⟩

/-- Any row kept by the ingestion filter has some cell nonempty after
trimming, hence is not all-blank. -/
theorem not_allBlank_of_kept (row : List String)
    (h : (row.any fun cell => strTrim cell != "") = true) :
    ¬ allBlankRow row := by
  rcases List.any_eq_true.mp h with ⟨c, hc, hne⟩
  intro hall
  have hne' : strTrim c ≠ "" := by simpa using hne
  exact hne' (hall c hc)

/-- Uploading preserves the no-all-blank-rows invariant. -/
theorem rowsInvariant_handleFileUpload (s : HomeState) (f : UploadedFile)
    (results : ParseResults) (hs : rowsInvariant s) :
    rowsInvariant (handleFileUpload s f results) := by
  intro d hd r hr
  simp only [handleFileUpload] at hd
  split at hd
  · exact hs d hd r hr
  · simp only [parseComplete] at hd
    split at hd
    · exact hs d hd r hr
    · split at hd
      · exact hs d hd r hr
      · simp only [uploadSyncPhase, Option.some.injEq] at hd
        subst hd
        rcases List.mem_filter.mp hr with ⟨_, hkeep⟩
        exact not_allBlank_of_kept r hkeep

/-- Every page operation preserves the no-all-blank-rows invariant. -/
theorem applyOp_preserves_rowsInvariant (s : HomeState) (op : PageOp)
    (hs : rowsInvariant s) : rowsInvariant (applyOp s op) := by
  cases op with
  | upload f results => exact rowsInvariant_handleFileUpload s f results hs
  | clear =>
    intro d hd
    simp [applyOp, clearData] at hd

/-- C8: in every state reachable from the initial state by any sequence of
uploads and clears, a present table contains no all-blank row. -/
theorem rows_invariant_reachable (ops : List PageOp) :
    rowsInvariant (runOps initialState ops) := by
  have hgen : ∀ (l : List PageOp) (s : HomeState), rowsInvariant s →
      rowsInvariant (runOps s l) := by
    intro l
    induction l with
    | nil => intro s hs; exact hs
    | cons op rest ih =>
      intro s hs
      exact ih (applyOp s op) (applyOp_preserves_rowsInvariant s op hs)
  refine hgen ops initialState ?_
  intro d hd
  simp [initialState] at hd

/-- Witness to C7 at a concrete fully-populated state. -/
theorem clearData_resets_all_witness :
    (clearData { csvData := some { headers := ["h"], rows := [["1"]] },
                 loading := true, error := some "e", fileName := "f.csv",
                 trameServerRunning := true }).csvData = none ∧
    (clearData { csvData := some { headers := ["h"], rows := [["1"]] },
                 loading := true, error := some "e", fileName := "f.csv",
                 trameServerRunning := true }).fileName = "" ∧
    (clearData { csvData := some { headers := ["h"], rows := [["1"]] },
                 loading := true, error := some "e", fileName := "f.csv",
                 trameServerRunning := true }).error = none :=
  clearData_resets_all _

/-- Witness to C8 at a concrete two-operation run whose upload carries a blank
row. -/
theorem rows_invariant_reachable_witness :
    rowsInvariant (runOps initialState
      [PageOp.upload { name := "w.csv", type := "text/csv" }
         { errors := [], data := [["h"], ["1"], [""]] },
       PageOp.upload { name := "w2.csv", type := "text/csv" }
         { errors := [], data := [["g"], [" "], ["2"]] }]) :=
  rows_invariant_reachable
    [PageOp.upload { name := "w.csv", type := "text/csv" }
       { errors := [], data := [["h"], ["1"], [""]] },
     PageOp.upload { name := "w2.csv", type := "text/csv" }
       { errors := [], data := [["g"], [" "], ["2"]] }]

/-- C9: for a validated upload that then fails (parser errors or zero rows
total), the file name is already replaced by the new file's name in the
synchronous phase, before the failure is known, and remains so after
completion, while the prior table is left unchanged — so file name and table
can refer to different uploads. -/
theorem failed_upload_filename_mismatch (s : HomeState) (f : UploadedFile)
    (results : ParseResults)
    (hvalid : f.type = "text/csv" ∨ strEndsWith f.name ".csv" = true)
    (hfail : results.errors ≠ [] ∨ results.data = []) :
    (uploadSyncPhase s f).fileName = f.name ∧
    (uploadSyncPhase s f).csvData = s.csvData ∧
    (handleFileUpload s f results).fileName = f.name ∧
    (handleFileUpload s f results).csvData = s.csvData := by
  have hc := valid_file_cond f hvalid
  have key : (handleFileUpload s f results).fileName = f.name ∧
      (handleFileUpload s f results).csvData = s.csvData := by
    rcases Nat.lt_or_ge 0 results.errors.length with hlen | hlen
    · simp [handleFileUpload, hc, parseComplete, hlen, uploadSyncPhase]
    · have herr : results.errors = [] :=
        List.eq_nil_of_length_eq_zero (by omega)
      have hdata : results.data = [] := by
        rcases hfail with h | h
        · exact absurd herr h
        · exact h
      simp [handleFileUpload, hc, parseComplete, herr, hdata, uploadSyncPhase]
  exact ⟨rfl, rfl, key.1, key.2⟩

/-- Witness to C9: a prior table from `old.csv` survives a failed upload of
`new.csv`, whose name nevertheless replaces the displayed one. -/
theorem failed_upload_filename_mismatch_witness :
    (handleFileUpload
        { csvData := some { headers := ["old"], rows := [["0"]] },
          loading := false, error := none, fileName := "old.csv",
          trameServerRunning := false }
        { name := "new.csv", type := "text/csv" }
        { errors := ["bad quote"], data := [] }).fileName = "new.csv" ∧
    (handleFileUpload
        { csvData := some { headers := ["old"], rows := [["0"]] },
          loading := false, error := none, fileName := "old.csv",
          trameServerRunning := false }
        { name := "new.csv", type := "text/csv" }
        { errors := ["bad quote"], data := [] }).csvData =
      some { headers := ["old"], rows := [["0"]] } := by
  have h := failed_upload_filename_mismatch
    { csvData := some { headers := ["old"], rows := [["0"]] },
      loading := false, error := none, fileName := "old.csv",
      trameServerRunning := false }
    { name := "new.csv", type := "text/csv" }
    { errors := ["bad quote"], data := [] }
    (Or.inl rfl) (Or.inl (by decide))
  exact ⟨h.2.2.1, h.2.2.2⟩

/-- C10: a type-rejected upload changes only the error message: the table, the
stored file name, the loading flag and the probe flag all keep their previous
values. -/
theorem rejected_upload_frame (s : HomeState) (f : UploadedFile)
    (results : ParseResults)
    (h1 : f.type ≠ "text/csv") (h2 : strEndsWith f.name ".csv" = false) :
    handleFileUpload s f results =
      { s with error := some "Please upload a valid CSV file" } ∧
    (handleFileUpload s f results).csvData = s.csvData ∧
    (handleFileUpload s f results).fileName = s.fileName ∧
    (handleFileUpload s f results).loading = s.loading ∧
    (handleFileUpload s f results).trameServerRunning = s.trameServerRunning := by
  have hc : (f.type != "text/csv" && !(strEndsWith f.name ".csv")) = true := by
    simp [bne, h1, h2]
  simp [handleFileUpload, hc]

/-- Witness to C10: rejecting `notes.txt` over a populated prior state keeps
table, file name and loading flag, and only sets the validation error. -/
theorem rejected_upload_frame_witness :
    handleFileUpload
        { csvData := some { headers := ["old"], rows := [["0"]] },
          loading := false, error := none, fileName := "old.csv",
          trameServerRunning := true }
        { name := "notes.txt", type := "text/plain" }
        { errors := [], data := [["x"]] } =
      { csvData := some { headers := ["old"], rows := [["0"]] },
        loading := false, error := some "Please upload a valid CSV file",
        fileName := "old.csv", trameServerRunning := true } :=
  (rejected_upload_frame
    { csvData := some { headers := ["old"], rows := [["0"]] },
      loading := false, error := none, fileName := "old.csv",
      trameServerRunning := true }
    { name := "notes.txt", type := "text/plain" }
    { errors := [], data := [["x"]] }
    (by decide) (by decide)).1
